import Mathlib

/-!
Verification of the smart-broker module of this repository: a shallow
embedding of the role-based multi-tenant services (properties, contacts,
campaigns, agencies, auth) and of the AI agent orchestration step, with
theorems settling the frozen claims about them.

Modelling conventions, used uniformly below:
* Mongo ObjectIds are modelled as `Nat`; `Types.ObjectId.isValid` guards in
  the source act on already-parsed ids here, so every id in scope is valid
  and the `BadRequest('ID inválido')` branches for malformed id strings are
  not represented (no claim depends on them).
* A Mongo collection is a `List` of documents; `Model.find(query)` is
  `List.filter` of the query's matching predicate, `Model.findById` is
  `List.find?` on the id.  The `.sort(...)` calls of the source only permute
  the result and are dropped; all claims are about membership or counts.
* Exceptions become an `Except ApiError` result.  Every service in the
  source performs all of its `throw`s before any `save`, except where noted
  (campaign execution saves a status change before it can throw BadRequest,
  which the embedding reproduces by returning the persisted document state
  alongside the error).
* `Date` fields and logging have no behavioural content for the claims and
  are omitted; document fields that no embedded operation reads or writes
  (photos, interactions, preferences, schedules, ...) are omitted from the
  document structures.
-/

namespace SmartBroker

/-- Mongo ObjectId, modelled as a natural number. -/
abbrev Id := Nat

/-- Source: types/roles.enum.ts `UserRole`. -/
inductive UserRole
  | admin
  | manager
  | agent
  | viewer
deriving DecidableEq, Repr

/-- Source: types/auth.types.ts `AuthenticatedUser` (the JWT-derived actor). -/
structure AuthenticatedUser where
  userId : Id
  email : String
  role : UserRole
  agencyId : Option Id
deriving DecidableEq, Repr

/-- The error taxonomy of src/exceptions: BadRequest / Forbidden / NotFound /
Conflict / Unauthorized, plus the Mongoose schema-validation error that a
`Model.create` with an out-of-enum field raises. -/
inductive ApiError
  | badRequest (msg : String)
  | forbidden (msg : String)
  | notFound (msg : String)
  | conflict (msg : String)
  | unauthorized (msg : String)
  | validation (msg : String)
deriving DecidableEq, Repr

/-- Source: contact.model.ts `ContactStatus`. -/
inductive ContactStatus
  | «new»
  | contacted
  | qualified
  | negotiating
  | converted
  | notInterested
  | lost
deriving DecidableEq, Repr

/-- Source: contact.model.ts `ContactOrigin`. -/
inductive ContactOrigin
  | whatsapp
  | website
  | phone
  | email
  | referral
  | socialMedia
  | walkIn
  | aiAssistant
  | other
deriving DecidableEq, Repr

/-- Source: contact.model.ts `IContact`.  `agency` and `assignedTo` are
optional in the schema (bootstrap contacts may lack both). -/
structure Contact where
  id : Id
  name : String
  phone : String
  email : Option String
  cpf : Option String
  origin : ContactOrigin
  status : ContactStatus
  agency : Option Id
  assignedTo : Option Id
  tags : List String
  notes : Option String
  urgency : Option String
  isActive : Bool
deriving DecidableEq, Repr

/-- Source: property.model.ts `PropertyType`. -/
inductive PropertyType
  | house
  | apartment
  | commercial
  | land
  | farm
  | penthouse
  | studio
deriving DecidableEq, Repr

/-- Source: property.model.ts `PropertyStatus`. -/
inductive PropertyStatus
  | available
  | sold
  | rented
  | reserved
  | unavailable
deriving DecidableEq, Repr

/-- Source: property.model.ts `TransactionType`. -/
inductive TransactionType
  | sale
  | rent
  | both
deriving DecidableEq, Repr

/-- Source: property.model.ts address subdocument (fields used by queries). -/
structure Address where
  street : String
  number : String
  neighborhood : String
  city : String
  state : String
  zipCode : String
deriving DecidableEq, Repr

/-- Source: property.model.ts features subdocument (numeric fields used by
the listing query). -/
structure PropertyFeatures where
  bedrooms : Nat
  bathrooms : Nat
  suites : Nat
  parkingSpaces : Nat
deriving DecidableEq, Repr

/-- Source: property.model.ts `IProperty` (fields the embedded operations
read or write).  `agency` and `owner` are required in the schema. -/
structure Property where
  id : Id
  type : PropertyType
  transactionType : TransactionType
  title : String
  description : String
  price : Int
  area : Int
  address : Address
  features : PropertyFeatures
  status : PropertyStatus
  agency : Id
  owner : Id
  isActive : Bool
deriving DecidableEq, Repr

/-- Source: campaign.model.ts `CampaignType`. -/
inductive CampaignType
  | broadcast
  | drip
  | targeted
deriving DecidableEq, Repr

/-- Source: campaign.model.ts `CampaignStatus`. -/
inductive CampaignStatus
  | draft
  | scheduled
  | running
  | paused
  | completed
  | cancelled
deriving DecidableEq, Repr

/-- Source: campaign.model.ts audience subdocument.  An absent array and an
empty array behave identically in every consumer (`x && x.length > 0`
guards), so plain lists model the optional arrays. -/
structure CampaignAudience where
  targetAgency : Option Id
  targetStatus : List ContactStatus
  targetTags : List String
  specificContacts : List Id
deriving DecidableEq, Repr

/-- Source: campaign.model.ts message subdocument.  `variables` is a
Mongoose `Map`, consumed as `Object.fromEntries(...)` / `Object.entries` in
insertion order: an association list in that order. -/
structure CampaignMessage where
  template : String
  «variables» : List (String × String)
deriving DecidableEq, Repr

/-- Source: campaign.model.ts statistics subdocument. -/
structure CampaignStatistics where
  totalContacts : Nat
  sent : Nat
  delivered : Nat
  readCount : Nat
  replied : Nat
  failed : Nat
deriving DecidableEq, Repr

/-- Source: campaign.model.ts `ICampaign` (fields the embedded operations
read or write).  `agency` is always set by `CampaignsService.create` and
dereferenced unconditionally by `execute`, so it is modelled as required. -/
structure Campaign where
  id : Id
  name : String
  type : CampaignType
  status : CampaignStatus
  audience : CampaignAudience
  message : CampaignMessage
  evolutionInstanceId : String
  statistics : CampaignStatistics
  createdBy : Id
  agency : Id
  isActive : Bool
  rateLimitMs : Nat
deriving DecidableEq, Repr

/-- Evaluate an optional query constraint: an absent field of a Mongo query
object constrains nothing. -/
def matchOpt {α : Type} : Option α → (α → Bool) → Bool
  | none, _ => true
  | some x, p => p x

/-- Case-insensitive containment: models `new RegExp(pat, 'i').test(s)` for
the metacharacter-free patterns these services build from user filters. -/
def iLike (pat s : String) : Bool :=
  decide (pat.toLower.data <:+: s.toLower.data)

/-! ## ContactsService (src/unnamed/part_008, `contacts.service.ts`) -/

/-- Source: contacts.service.ts `ContactFilters`. -/
structure ContactFilters where
  status : Option ContactStatus
  origin : Option ContactOrigin
  agency : Option Id
  assignedTo : Option Id
  tags : List String
  urgency : Option String
deriving DecidableEq, Repr

/-- Source: contacts.service.ts `UpdateContactDto` (fields present on the
modelled `Contact`; `interestedProperties` and `preferences` are not read by
any claim and are omitted). -/
structure UpdateContactDto where
  name : Option String
  phone : Option String
  email : Option String
  cpf : Option String
  status : Option ContactStatus
  notes : Option String
  assignedTo : Option Id
  tags : Option (List String)
  urgency : Option String
deriving DecidableEq, Repr

/-- The Mongo query object built by `ContactsService.findAll`. -/
structure ContactQuery where
  isActive : Bool
  agency : Option Id
  assignedTo : Option Id
  status : Option ContactStatus
  origin : Option ContactOrigin
  urgency : Option String
  tags : Option (List String)
deriving DecidableEq, Repr

/-- The empty contact query `{ isActive: true }`. -/
def ContactQuery.base : ContactQuery :=
  { isActive := true, agency := none, assignedTo := none, status := none
    origin := none, urgency := none, tags := none }

/-- Whether a contact document matches a `ContactQuery` (`$in` on tags). -/
def contactMatches (q : ContactQuery) (c : Contact) : Bool :=
  (c.isActive == q.isActive) &&
  matchOpt q.agency (fun a => c.agency == some a) &&
  matchOpt q.assignedTo (fun a => c.assignedTo == some a) &&
  matchOpt q.status (fun s => c.status == s) &&
  matchOpt q.origin (fun o => c.origin == o) &&
  matchOpt q.urgency (fun u => c.urgency == some u) &&
  matchOpt q.tags (fun ts => ts.any (fun t => c.tags.contains t))

/-- The `// Aplicar filtros adicionais` block of `ContactsService.findAll`:
each present filter overwrites its query field (in particular a present
`assignedTo` filter overwrites the value the RBAC block put there).  The
source assigns the fields sequentially; the assignments touch distinct
fields so they are rendered as one record update.  JS truthiness: an empty
`urgency` string and an empty `tags` array leave the query unchanged. -/
def applyContactFilters (filters : Option ContactFilters) (q : ContactQuery) : ContactQuery :=
  match filters with
  | none => q
  | some f =>
    { q with
      status := match f.status with | some s => some s | none => q.status
      origin := match f.origin with | some o => some o | none => q.origin
      urgency := match f.urgency with
        | some u => if u = "" then q.urgency else some u
        | none => q.urgency
      assignedTo := match f.assignedTo with | some a => some a | none => q.assignedTo
      tags := if f.tags ≠ [] then some f.tags else q.tags }

/-- Source: `ContactsService.findAll` RBAC scoping followed by the filter
block, producing the Mongo query, or Forbidden for a tenant-less non-admin. -/
def ContactsService.findAllQuery (user : AuthenticatedUser) (filters : Option ContactFilters) :
    Except ApiError ContactQuery :=
  if user.role = UserRole.admin then
    let q := match filters with
      | some f => match f.agency with
        | some a => { ContactQuery.base with agency := some a }
        | none => ContactQuery.base
      | none => ContactQuery.base
    Except.ok (applyContactFilters filters q)
  else
    match user.agencyId with
    | none => Except.error (ApiError.forbidden "Usuário não possui agência associada")
    | some a =>
      let q := { ContactQuery.base with agency := some a }
      let q := if user.role = UserRole.agent then { q with assignedTo := some user.userId } else q
      Except.ok (applyContactFilters filters q)

/-- Source: `ContactsService.findAll`. -/
def ContactsService.findAll (user : AuthenticatedUser) (filters : Option ContactFilters)
    (db : List Contact) : Except ApiError (List Contact) :=
  match ContactsService.findAllQuery user filters with
  | Except.error e => Except.error e
  | Except.ok q => Except.ok (db.filter (fun c => contactMatches q c))

/-- `Object.assign(contact, dto)` (with the ObjectId re-wrapping of
`assignedTo`): every field present on the dto overwrites the document's. -/
def applyContactUpdate (c : Contact) (dto : UpdateContactDto) : Contact :=
  { c with
    name := dto.name.getD c.name
    phone := dto.phone.getD c.phone
    email := match dto.email with | some e => some e | none => c.email
    cpf := match dto.cpf with | some v => some v | none => c.cpf
    status := dto.status.getD c.status
    notes := match dto.notes with | some n => some n | none => c.notes
    assignedTo := match dto.assignedTo with | some a => some a | none => c.assignedTo
    tags := dto.tags.getD c.tags
    urgency := match dto.urgency with | some u => some u | none => c.urgency }

/-- Source: `ContactsService.update`.  RBAC: admin always; manager within the
agency (a contact without an agency passes the manager check, as in the JS
`contact.agency && ...` guard); agent only on contacts assigned to them;
viewer never. -/
def ContactsService.update (db : List Contact) (id : Id) (dto : UpdateContactDto)
    (user : AuthenticatedUser) : Except ApiError Contact :=
  match db.find? (fun c => c.id == id) with
  | none => Except.error (ApiError.notFound "Contato não encontrado")
  | some contact =>
    if user.role = UserRole.admin then
      Except.ok (applyContactUpdate contact dto)
    else if user.role = UserRole.manager then
      match contact.agency with
      | some a =>
        if user.agencyId ≠ some a then
          Except.error (ApiError.forbidden "Você só pode modificar contatos da sua agência")
        else
          Except.ok (applyContactUpdate contact dto)
      | none => Except.ok (applyContactUpdate contact dto)
    else if user.role = UserRole.agent then
      if contact.assignedTo ≠ some user.userId then
        Except.error (ApiError.forbidden "Você só pode modificar seus próprios contatos")
      else
        Except.ok (applyContactUpdate contact dto)
    else
      Except.error (ApiError.forbidden "Você não tem permissão para modificar contatos")

/-- Source: `ContactsService.remove` (soft delete).  Admin always; manager
within the agency; agent and viewer never. -/
def ContactsService.remove (db : List Contact) (id : Id) (user : AuthenticatedUser) :
    Except ApiError Contact :=
  match db.find? (fun c => c.id == id) with
  | none => Except.error (ApiError.notFound "Contato não encontrado")
  | some contact =>
    if user.role = UserRole.admin then
      Except.ok { contact with isActive := false }
    else if user.role = UserRole.manager then
      match contact.agency with
      | some a =>
        if user.agencyId ≠ some a then
          Except.error (ApiError.forbidden "Você só pode deletar contatos da sua agência")
        else
          Except.ok { contact with isActive := false }
      | none => Except.ok { contact with isActive := false }
    else
      Except.error (ApiError.forbidden "Você não tem permissão para deletar contatos")

/-! ## PropertiesService (src/unnamed/part_006, `properties.service.ts`) -/

/-- Source: properties.service.ts `PropertyFilters`. -/
structure PropertyFilters where
  type : Option PropertyType
  transactionType : Option TransactionType
  status : Option PropertyStatus
  minPrice : Option Int
  maxPrice : Option Int
  minArea : Option Int
  maxArea : Option Int
  city : Option String
  state : Option String
  neighborhood : Option String
  bedrooms : Option Nat
  bathrooms : Option Nat
  parkingSpaces : Option Nat
  agency : Option Id
deriving DecidableEq, Repr

/-- Source: properties.service.ts `UpdatePropertyDto` (fields present on the
modelled `Property`). -/
structure UpdatePropertyDto where
  type : Option PropertyType
  transactionType : Option TransactionType
  title : Option String
  description : Option String
  price : Option Int
  area : Option Int
  address : Option Address
  features : Option PropertyFeatures
  status : Option PropertyStatus
  isActive : Option Bool
deriving DecidableEq, Repr

/-- The Mongo query object built by `PropertiesService.findAll`. -/
structure PropertyQuery where
  isActive : Bool
  agency : Option Id
  type : Option PropertyType
  transactionType : Option TransactionType
  status : Option PropertyStatus
  priceGte : Option Int
  priceLte : Option Int
  areaGte : Option Int
  areaLte : Option Int
  city : Option String
  state : Option String
  neighborhood : Option String
  bedroomsGte : Option Nat
  bathroomsGte : Option Nat
  parkingSpacesGte : Option Nat
deriving DecidableEq, Repr

/-- The empty property query `{ isActive: true }`. -/
def PropertyQuery.base : PropertyQuery :=
  { isActive := true, agency := none, type := none, transactionType := none
    status := none, priceGte := none, priceLte := none, areaGte := none
    areaLte := none, city := none, state := none, neighborhood := none
    bedroomsGte := none, bathroomsGte := none, parkingSpacesGte := none }

/-- Whether a property document matches a `PropertyQuery`.  `city` and
`neighborhood` are case-insensitive regex constraints, `state` an exact
match against the upper-cased filter. -/
def propertyMatches (q : PropertyQuery) (p : Property) : Bool :=
  (p.isActive == q.isActive) &&
  matchOpt q.agency (fun a => p.agency == a) &&
  matchOpt q.type (fun t => p.type == t) &&
  matchOpt q.transactionType (fun t => p.transactionType == t) &&
  matchOpt q.status (fun s => p.status == s) &&
  matchOpt q.priceGte (fun v => v ≤ p.price) &&
  matchOpt q.priceLte (fun v => p.price ≤ v) &&
  matchOpt q.areaGte (fun v => v ≤ p.area) &&
  matchOpt q.areaLte (fun v => p.area ≤ v) &&
  matchOpt q.city (fun pat => iLike pat p.address.city) &&
  matchOpt q.state (fun st => p.address.state == st) &&
  matchOpt q.neighborhood (fun pat => iLike pat p.address.neighborhood) &&
  matchOpt q.bedroomsGte (fun n => n ≤ p.features.bedrooms) &&
  matchOpt q.bathroomsGte (fun n => n ≤ p.features.bathrooms) &&
  matchOpt q.parkingSpacesGte (fun n => n ≤ p.features.parkingSpaces)

/-- The `// Aplicar filtros adicionais` block of `PropertiesService.findAll`.
The source's sequential field assignments touch distinct fields and are
rendered as one record update.  JS truthiness: empty `city` / `state` /
`neighborhood` strings leave the query unchanged; the numeric bounds use
explicit `!== undefined` checks. -/
def applyPropertyFilters (filters : Option PropertyFilters) (q : PropertyQuery) : PropertyQuery :=
  match filters with
  | none => q
  | some f =>
    { q with
      type := match f.type with | some t => some t | none => q.type
      transactionType := match f.transactionType with | some t => some t | none => q.transactionType
      status := match f.status with | some s => some s | none => q.status
      priceGte := if f.minPrice.isSome || f.maxPrice.isSome then f.minPrice else q.priceGte
      priceLte := if f.minPrice.isSome || f.maxPrice.isSome then f.maxPrice else q.priceLte
      areaGte := if f.minArea.isSome || f.maxArea.isSome then f.minArea else q.areaGte
      areaLte := if f.minArea.isSome || f.maxArea.isSome then f.maxArea else q.areaLte
      city := match f.city with
        | some c => if c = "" then q.city else some c
        | none => q.city
      state := match f.state with
        | some s => if s = "" then q.state else some s.toUpper
        | none => q.state
      neighborhood := match f.neighborhood with
        | some n => if n = "" then q.neighborhood else some n
        | none => q.neighborhood
      bedroomsGte := match f.bedrooms with | some b => some b | none => q.bedroomsGte
      bathroomsGte := match f.bathrooms with | some b => some b | none => q.bathroomsGte
      parkingSpacesGte := match f.parkingSpaces with | some s => some s | none => q.parkingSpacesGte }

/-- Source: `PropertiesService.findAll` RBAC scoping followed by the filter
block. -/
def PropertiesService.findAllQuery (user : AuthenticatedUser) (filters : Option PropertyFilters) :
    Except ApiError PropertyQuery :=
  if user.role = UserRole.admin then
    let q := match filters with
      | some f => match f.agency with
        | some a => { PropertyQuery.base with agency := some a }
        | none => PropertyQuery.base
      | none => PropertyQuery.base
    Except.ok (applyPropertyFilters filters q)
  else
    match user.agencyId with
    | none => Except.error (ApiError.forbidden "Usuário não possui agência associada")
    | some a => Except.ok (applyPropertyFilters filters { PropertyQuery.base with agency := some a })

/-- Source: `PropertiesService.findAll`. -/
def PropertiesService.findAll (user : AuthenticatedUser) (filters : Option PropertyFilters)
    (db : List Property) : Except ApiError (List Property) :=
  match PropertiesService.findAllQuery user filters with
  | Except.error e => Except.error e
  | Except.ok q => Except.ok (db.filter (fun p => propertyMatches q p))

/-- `Object.assign(property, dto)` for the modelled fields. -/
def applyPropertyUpdate (p : Property) (dto : UpdatePropertyDto) : Property :=
  { p with
    type := dto.type.getD p.type
    transactionType := dto.transactionType.getD p.transactionType
    title := dto.title.getD p.title
    description := dto.description.getD p.description
    price := dto.price.getD p.price
    area := dto.area.getD p.area
    address := dto.address.getD p.address
    features := dto.features.getD p.features
    status := dto.status.getD p.status
    isActive := dto.isActive.getD p.isActive }

/-- Source: `PropertiesService.update`.  RBAC: admin always; manager within
the agency; every other role (agent, viewer) is always Forbidden. -/
def PropertiesService.update (db : List Property) (id : Id) (dto : UpdatePropertyDto)
    (user : AuthenticatedUser) : Except ApiError Property :=
  match db.find? (fun p => p.id == id) with
  | none => Except.error (ApiError.notFound "Imóvel não encontrado")
  | some property =>
    if user.role = UserRole.admin then
      Except.ok (applyPropertyUpdate property dto)
    else if user.role = UserRole.manager then
      if user.agencyId ≠ some property.agency then
        Except.error (ApiError.forbidden "Você só pode modificar imóveis da sua agência")
      else
        Except.ok (applyPropertyUpdate property dto)
    else
      Except.error (ApiError.forbidden "Você não tem permissão para modificar imóveis")

/-- Source: `PropertiesService.remove` (soft delete).  Admin always; manager
within the agency; agent and viewer never. -/
def PropertiesService.remove (db : List Property) (id : Id) (user : AuthenticatedUser) :
    Except ApiError Property :=
  match db.find? (fun p => p.id == id) with
  | none => Except.error (ApiError.notFound "Imóvel não encontrado")
  | some property =>
    if user.role = UserRole.admin then
      Except.ok { property with isActive := false }
    else if user.role = UserRole.manager then
      if user.agencyId ≠ some property.agency then
        Except.error (ApiError.forbidden "Você só pode deletar imóveis da sua agência")
      else
        Except.ok { property with isActive := false }
    else
      Except.error (ApiError.forbidden "Você não tem permissão para deletar imóveis")

/-! ## CampaignsService (src/src/modules/smart-broker/services/campaigns.service.ts) -/

/-- The filters accepted by `CampaignsService.findAll`. -/
structure CampaignFilters where
  agency : Option Id
  status : Option CampaignStatus
  type : Option CampaignType
deriving DecidableEq, Repr

/-- The Mongo query object built by `CampaignsService.findAll`. -/
structure CampaignQuery where
  isActive : Bool
  agency : Option Id
  status : Option CampaignStatus
  type : Option CampaignType
deriving DecidableEq, Repr

/-- Whether a campaign document matches a `CampaignQuery`. -/
def campaignMatches (q : CampaignQuery) (c : Campaign) : Bool :=
  (c.isActive == q.isActive) &&
  matchOpt q.agency (fun a => c.agency == a) &&
  matchOpt q.status (fun s => c.status == s) &&
  matchOpt q.type (fun t => c.type == t)

/-- Source: `CampaignsService.findAll` RBAC scoping and filter block. -/
def CampaignsService.findAllQuery (user : AuthenticatedUser) (filters : Option CampaignFilters) :
    Except ApiError CampaignQuery :=
  let base : CampaignQuery := { isActive := true, agency := none, status := none, type := none }
  let scopedQ : Except ApiError CampaignQuery :=
    if user.role = UserRole.admin then
      Except.ok (match filters with
        | some f => match f.agency with
          | some a => { base with agency := some a }
          | none => base
        | none => base)
    else
      match user.agencyId with
      | none => Except.error (ApiError.forbidden "Usuário não possui agência associada")
      | some a => Except.ok { base with agency := some a }
  match scopedQ with
  | Except.error e => Except.error e
  | Except.ok q =>
    Except.ok (match filters with
      | none => q
      | some f =>
        { q with
          status := match f.status with | some s => some s | none => q.status
          type := match f.type with | some t => some t | none => q.type })

/-- Source: `CampaignsService.findAll`. -/
def CampaignsService.findAll (user : AuthenticatedUser) (filters : Option CampaignFilters)
    (db : List Campaign) : Except ApiError (List Campaign) :=
  match CampaignsService.findAllQuery user filters with
  | Except.error e => Except.error e
  | Except.ok q => Except.ok (db.filter (fun c => campaignMatches q c))

/-- Source: `CampaignsService.calculateAudienceCount`.  A non-empty
`specificContacts` list short-circuits to its length (no store lookup, no
agency filter); otherwise active contacts of the given agency matching the
status/tags `$in` filters are counted. -/
def CampaignsService.calculateAudienceCount (audience : CampaignAudience) (agencyId : Id)
    (contactsDb : List Contact) : Nat :=
  if audience.specificContacts ≠ [] then
    audience.specificContacts.length
  else
    (contactsDb.filter (fun c =>
      c.isActive && (c.agency == some agencyId) &&
      (audience.targetStatus.isEmpty || audience.targetStatus.contains c.status) &&
      (audience.targetTags.isEmpty || audience.targetTags.any (fun t => c.tags.contains t)))).length

/-- Source: `CampaignsService.getAudienceContacts`.  With a non-empty
`specificContacts` list the query is `{ _id: { $in: ids }, isActive: true }`,
with no constraint on the contact's agency; otherwise active contacts of the
campaign's agency matching the status/tags filters. -/
def CampaignsService.getAudienceContacts (campaign : Campaign) (contactsDb : List Contact) :
    List Contact :=
  if campaign.audience.specificContacts ≠ [] then
    contactsDb.filter (fun c => campaign.audience.specificContacts.contains c.id && c.isActive)
  else
    contactsDb.filter (fun c =>
      c.isActive && (c.agency == some campaign.agency) &&
      (campaign.audience.targetStatus.isEmpty ||
        campaign.audience.targetStatus.contains c.status) &&
      (campaign.audience.targetTags.isEmpty ||
        campaign.audience.targetTags.any (fun t => c.tags.contains t)))

/-- Global literal-pattern replacement on character lists: the semantics of
JavaScript `String.prototype.replace` with a global regex, scanning left to
right, replacing non-overlapping occurrences, never rescanning replacement
text — exact for a pattern string without regex metacharacters (which the
regex engine then matches as literal text) and a replacement string without
`$` (which it then splices verbatim, no substitution patterns).  Theorems
quantifying over user-supplied keys or values therefore restrict themselves
to that fragment via `literalKey` / `dollarFree` below; the fixed
`contact.*` patterns of the source are metacharacter-free by construction
(the source escapes their dot).  An empty pattern never arises (every
pattern contains braces).  The recursion is structural on a fuel bounding
the scanned length: each step consumes one unit of fuel and at least one
source character, so any fuel of at least `s.length` (exhaustion returns
the remaining source unchanged, matching the zero-fuel-needed empty
source). -/
def replaceAllAux (pat rep : List Char) : Nat → List Char → List Char
  | _, [] => []
  | 0, s => s
  | fuel + 1, c :: s =>
    if 0 < pat.length ∧ pat.isPrefixOf (c :: s) then
      rep ++ replaceAllAux pat rep fuel ((c :: s).drop pat.length)
    else
      c :: replaceAllAux pat rep fuel s

/-- Global literal-pattern replacement, fuelled by the source length. -/
def replaceAll (pat rep s : List Char) : List Char :=
  replaceAllAux pat rep s.length s

/-- String form of `replaceAll`: `s.replace(new RegExp(pat, 'g'), rep)` for
a metacharacter-free `pat` and a `$`-free `rep`. -/
def replaceAllStr (s pat rep : String) : String :=
  String.mk (replaceAll pat.data rep.data s.data)

/-- The JavaScript regex metacharacters.  A key containing none of them
makes `new RegExp('\x7b\x7b' + key + '\x7d\x7d', 'g')` match exactly the
literal text of the placeholder (the surrounding braces, not forming a
valid quantifier, are themselves literal under Annex B). -/
def regexMetachars : List Char :=
  "\\^$.|?*+()[]\x7b\x7d".data

/-- Whether the constructed placeholder regex treats this variable key as
literal text. -/
def literalKey (k : String) : Bool :=
  k.data.all (fun c => !(regexMetachars.contains c))

/-- Whether JS splices this replacement value verbatim: a value with `$`
would instead be interpreted for substitution patterns by
`String.prototype.replace`. -/
def dollarFree (v : String) : Bool :=
  v.data.all (fun c => c != '$')

/-- Source: `CampaignsService.replaceVariables`.  Named variables are
substituted in entry order, then the three fixed contact placeholders, the
name falling back to "Cliente" (JS `contact.name || 'Cliente'`, so also for
an empty name) and email/phone to the empty string.  Each substitution is
the literal splice `replaceAllStr`, which coincides with the source's
regex-based replace exactly when the key is `literalKey` and the spliced
value `dollarFree`; statements quantifying over arbitrary variables maps or
contacts carry those bounds as hypotheses. -/
def CampaignsService.replaceVariables (template : String)
    («variables» : List (String × String)) (contact : Contact) : String :=
  let message := «variables».foldl
    (fun m kv => replaceAllStr m ("\x7b\x7b" ++ kv.1 ++ "\x7d\x7d") kv.2) template
  let message := replaceAllStr message "\x7b\x7bcontact.name\x7d\x7d"
    (if contact.name = "" then "Cliente" else contact.name)
  let message := replaceAllStr message "\x7b\x7bcontact.email\x7d\x7d" (contact.email.getD "")
  let message := replaceAllStr message "\x7b\x7bcontact.phone\x7d\x7d" contact.phone
  message

/-- One observable step of the campaign send loop: the rate-limit suspension
or a delivery attempt (with the rendered message and the bridge outcome). -/
inductive SendEvent
  | delay
  | attempt (contactId : Id) (message : String) (ok : Bool)
deriving DecidableEq, Repr

/-- Source: the `for (const contact of contacts)` loop of
`CampaignsService.execute`.  Per contact, inside one try/catch: the delay
when `rateLimitMs > 0` (JS `campaign.rateLimitMs && campaign.rateLimitMs > 0`),
template rendering, then the bridge send, whose outcome the `sendOk` oracle
gives; a failure increments `failed` and continues.  Returns
(sent, failed, event trace). -/
def CampaignsService.sendLoop (campaign : Campaign) (sendOk : Id → Bool) :
    List Contact → Nat × Nat × List SendEvent
  | [] => (0, 0, [])
  | contact :: rest =>
    let pre : List SendEvent := if campaign.rateLimitMs > 0 then [SendEvent.delay] else []
    let message := CampaignsService.replaceVariables campaign.message.template
      campaign.message.«variables» contact
    let ok := sendOk contact.id
    let (sent, failed, trace) := CampaignsService.sendLoop campaign sendOk rest
    (if ok then sent + 1 else sent,
     if ok then failed else failed + 1,
     pre ++ SendEvent.attempt contact.id message ok :: trace)

deriving instance DecidableEq for Except

/-- The observable outcome of `CampaignsService.execute`: the returned value
or error, the campaign document's persisted state after the call (`none`
when the id resolves to no document), and the send-loop event trace. -/
structure ExecOutcome where
  result : Except ApiError String
  final : Option Campaign
  trace : List SendEvent
deriving DecidableEq, Repr

/-- Source: `CampaignsService.execute`.  Lookup, RBAC, the running/completed
status guards, then: status saved as `running`; audience resolution; an
empty audience saves status `completed` and throws BadRequest; otherwise the
sequential send loop runs and the final statistics and `completed` status
are saved. -/
def CampaignsService.execute (campaignsDb : List Campaign) (contactsDb : List Contact)
    (sendOk : Id → Bool) (id : Id) (user : AuthenticatedUser) : ExecOutcome :=
  match campaignsDb.find? (fun c => c.id == id) with
  | none => { result := Except.error (ApiError.notFound "Campanha não encontrada")
              final := none, trace := [] }
  | some campaign =>
    if user.role ≠ UserRole.admin ∧ some campaign.agency ≠ user.agencyId then
      { result := Except.error
          (ApiError.forbidden "Você não tem permissão para executar esta campanha")
        final := some campaign, trace := [] }
    else if campaign.status = CampaignStatus.running then
      { result := Except.error (ApiError.badRequest "Campanha já está em execução")
        final := some campaign, trace := [] }
    else if campaign.status = CampaignStatus.completed then
      { result := Except.error (ApiError.badRequest "Campanha já foi concluída")
        final := some campaign, trace := [] }
    else
      let campaign := { campaign with status := CampaignStatus.running }
      let contacts := CampaignsService.getAudienceContacts campaign contactsDb
      if contacts = [] then
        { result := Except.error (ApiError.badRequest "Nenhum contato encontrado na audiência")
          final := some { campaign with status := CampaignStatus.completed }, trace := [] }
      else
        let (sent, failed, trace) := CampaignsService.sendLoop campaign sendOk contacts
        { result := Except.ok
            s!"Campanha executada com sucesso. {sent} mensagens enviadas, {failed} falhas."
          final := some { campaign with
            status := CampaignStatus.completed
            statistics := { campaign.statistics with sent := sent, failed := failed } }
          trace := trace }

/-! ## AuthService (src/unnamed/part_007, `auth.service.ts`) -/

/-- Source: auth.service.ts `RegisterDto`. -/
structure RegisterDto where
  email : String
  password : String
  name : String
  phone : Option String
  role : Option String
deriving DecidableEq, Repr

/-- Source: user.model.ts `IUser` as stored by `UserModel.create` (the role
is kept as the raw string the schema validates). -/
structure StoredUser where
  email : String
  password : String
  name : String
  phone : Option String
  role : String
  agencyId : Option Id
  isActive : Bool
deriving DecidableEq, Repr

/-- `Object.values(UserRole)`: the strings the user schema's role enum
accepts. -/
def UserRole.values : List String :=
  ["admin", "manager", "agent", "viewer"]

/-- Source: `AuthService.register`.  Duplicate-email check, then
`UserModel.create` with `role: role || 'viewer'` (so an omitted or empty
role becomes "viewer"), subject to the schema's enum validation of the role
string.  `bcrypt.hash` is an out-of-scope primitive, modelled as identity on
the password. -/
def AuthService.register (db : List StoredUser) (dto : RegisterDto) :
    Except ApiError StoredUser :=
  if db.any (fun u => u.email == dto.email) then
    Except.error (ApiError.badRequest "Email já cadastrado")
  else
    let role := match dto.role with
      | some r => if r = "" then "viewer" else r
      | none => "viewer"
    if UserRole.values.contains role then
      Except.ok { email := dto.email, password := dto.password, name := dto.name
                  phone := dto.phone, role := role, agencyId := none, isActive := true }
    else
      Except.error (ApiError.validation "role: valor fora do enum do schema")

/-! ## AgenciesService (src/src/modules/smart-broker/services/agencies.service.ts) -/

/-- Source: agency.model.ts `IAgency` (fields `removeMember` reads or
writes). -/
structure Agency where
  id : Id
  name : String
  cnpj : String
  owner : Id
  members : List Id
  isActive : Bool
deriving DecidableEq, Repr

/-- The successful outcome of `AgenciesService.removeMember`: the saved
agency (members filtered) and the user whose `agencyId` was set to null. -/
structure RemoveMemberOk where
  agency : Agency
  clearedUserId : Id
deriving DecidableEq, Repr

/-- Source: `AgenciesService.removeMember`.  Lookup; the owner-or-admin
permission check (Forbidden); then the owner-removal guard (BadRequest);
only after both does it filter the membership and clear the user's tenant
binding — every error therefore leaves both documents untouched. -/
def AgenciesService.removeMember (agencies : List Agency) (agencyId userId : Id)
    (user : AuthenticatedUser) : Except ApiError RemoveMemberOk :=
  match agencies.find? (fun a => a.id == agencyId) with
  | none => Except.error (ApiError.notFound "Agência não encontrada")
  | some agency =>
    if user.role ≠ UserRole.admin ∧ agency.owner ≠ user.userId then
      Except.error (ApiError.forbidden "Apenas o proprietário ou admin pode remover membros")
    else if agency.owner = userId then
      Except.error (ApiError.badRequest "Não é possível remover o proprietário da agência")
    else
      Except.ok { agency := { agency with members := agency.members.filter (fun m => m ≠ userId) }
                  clearedUserId := userId }

/-! ## AgentsService (src/src/modules/smart-broker/services/agents.service.ts) -/

/-- Source: models/index.ts `AgentStatus`. -/
inductive AgentStatus
  | idle
  | thinking
  | executing
  | waiting
  | completed
  | error
deriving DecidableEq, Repr

/-- One transcript entry of an agent session (role is one of
'user' / 'assistant' / 'system'; `toolName` is the tool-result metadata). -/
structure SessionMessage where
  role : String
  content : String
  toolName : Option String
deriving DecidableEq, Repr

/-- The agent-session fields one orchestration step reads and writes. -/
structure AgentSession where
  messages : List SessionMessage
  agentStatus : AgentStatus
  messageCount : Nat
deriving DecidableEq, Repr

/-- The names of the fixed tool registry built by
`AgentsService.getToolsForAgent`. -/
def AgentsService.toolNames : List String :=
  ["search_properties", "get_property_details", "search_contacts", "send_whatsapp_message"]

/-- One tool invocation of an OpenAI chat response
(`assistantMessage.tool_calls` entry). -/
structure OpenAIToolCall where
  type : String
  name : String
  arguments : String
deriving DecidableEq, Repr

/-- The OpenAI provider response fields the orchestration step reads. -/
structure OpenAIResponseMessage where
  toolCalls : List OpenAIToolCall
  content : Option String
deriving DecidableEq, Repr

/-- Source: the per-response body of `AgentsService.executeWithOpenAI`,
between the provider call and the recursive re-invocation: with tool calls,
status `executing` is saved and each call whose `type` is `'function'` and
whose name resolves in the registry appends one tool-result entry (the tool's
serialized result string comes from the `toolExec` oracle — tool `execute`
functions catch internally and never throw), after which the provider is
re-invoked (flag `true`); with no tool calls, a truthy `content` is appended
as one assistant entry and `agentStatus` is saved as `idle` (flag `false`). -/
def AgentsService.executeWithOpenAIStep (session : AgentSession)
    (assistantMessage : OpenAIResponseMessage) (toolExec : String → String → String) :
    AgentSession × Bool :=
  if assistantMessage.toolCalls ≠ [] then
    let entries := assistantMessage.toolCalls.filterMap (fun tc =>
      if tc.type ≠ "function" then none
      else if AgentsService.toolNames.contains tc.name then
        some { role := "assistant"
               content := "[Ferramenta: " ++ tc.name ++ "] " ++ toolExec tc.name tc.arguments
               toolName := some tc.name }
      else none)
    let messages := session.messages ++ entries
    ({ session with agentStatus := AgentStatus.executing, messages := messages
                    messageCount := messages.length }, true)
  else
    let messages := match assistantMessage.content with
      | some c =>
        if c ≠ "" then
          session.messages ++ [{ role := "assistant", content := c, toolName := none }]
        else session.messages
      | none => session.messages
    ({ session with agentStatus := AgentStatus.idle, messages := messages
                    messageCount := messages.length }, false)

/-- One function call of a Gemini response (`response.functionCalls()`
entry). -/
structure GeminiFunctionCall where
  name : String
  args : String
deriving DecidableEq, Repr

/-- The Gemini provider response fields the orchestration step reads
(`text` empty models a falsy `response.text()`). -/
structure GeminiResponse where
  functionCalls : List GeminiFunctionCall
  text : String
deriving DecidableEq, Repr

/-- Source: the per-response body of `AgentsService.executeWithGemini`,
mirroring the OpenAI step without the `type === 'function'` filter. -/
def AgentsService.executeWithGeminiStep (session : AgentSession)
    (response : GeminiResponse) (toolExec : String → String → String) :
    AgentSession × Bool :=
  if response.functionCalls ≠ [] then
    let entries := response.functionCalls.filterMap (fun call =>
      if AgentsService.toolNames.contains call.name then
        some { role := "assistant"
               content := "[Ferramenta: " ++ call.name ++ "] " ++ toolExec call.name call.args
               toolName := some call.name }
      else none)
    let messages := session.messages ++ entries
    ({ session with agentStatus := AgentStatus.executing, messages := messages
                    messageCount := messages.length }, true)
  else
    let messages :=
      if response.text ≠ "" then
        session.messages ++ [{ role := "assistant", content := response.text, toolName := none }]
      else session.messages
    ({ session with agentStatus := AgentStatus.idle, messages := messages
                    messageCount := messages.length }, false)

/-! ## Concrete instances used by witnesses and counterexamples -/

/-- A manager of agency 10. -/
def uC1 : AuthenticatedUser :=
  { userId := 2, email := "manager@x.com", role := UserRole.manager, agencyId := some 10 }

/-- An active property of agency 10. -/
def pC1 : Property :=
  { id := 1, type := PropertyType.house, transactionType := TransactionType.sale
    title := "Casa", description := "d", price := 100, area := 80
    address := { street := "r", number := "1", neighborhood := "n", city := "SP"
                 state := "SP", zipCode := "0" }
    features := { bedrooms := 2, bathrooms := 1, suites := 0, parkingSpaces := 1 }
    status := PropertyStatus.available, agency := 10, owner := 2, isActive := true }

/-- A campaign of agency 10 whose audience names contact 7 explicitly. -/
def campC2 : Campaign :=
  { id := 1, name := "camp", type := CampaignType.broadcast, status := CampaignStatus.draft
    audience := { targetAgency := none, targetStatus := [], targetTags := []
                  specificContacts := [7] }
    message := { template := "Oi", «variables» := [] }
    evolutionInstanceId := "inst"
    statistics := { totalContacts := 1, sent := 0, delivered := 0, readCount := 0
                    replied := 0, failed := 0 }
    createdBy := 2, agency := 10, isActive := true, rateLimitMs := 0 }

/-- An active contact that belongs to agency 99, not 10. -/
def contC2 : Contact :=
  { id := 7, name := "Ana", phone := "551199", email := none, cpf := none
    origin := ContactOrigin.whatsapp, status := ContactStatus.«new», agency := some 99
    assignedTo := none, tags := [], notes := none, urgency := none, isActive := true }

/-- An agent of agency 10. -/
def uC3 : AuthenticatedUser :=
  { userId := 1, email := "agent@x.com", role := UserRole.agent, agencyId := some 10 }

/-- An active property of agency 10 owned (created) by user 1. -/
def pC3 : Property :=
  { id := 5, type := PropertyType.apartment, transactionType := TransactionType.rent
    title := "Apto", description := "d", price := 90, area := 50
    address := { street := "r", number := "2", neighborhood := "n", city := "SP"
                 state := "SP", zipCode := "0" }
    features := { bedrooms := 1, bathrooms := 1, suites := 0, parkingSpaces := 0 }
    status := PropertyStatus.available, agency := 10, owner := 1, isActive := true }

/-- The empty property update. -/
def dtoPropEmpty : UpdatePropertyDto :=
  { type := none, transactionType := none, title := none, description := none
    price := none, area := none, address := none, features := none, status := none
    isActive := none }

/-- An active contact of agency 10 assigned to user 1. -/
def cC3 : Contact :=
  { id := 6, name := "Bia", phone := "5511", email := none, cpf := none
    origin := ContactOrigin.website, status := ContactStatus.«new», agency := some 10
    assignedTo := some 1, tags := [], notes := none, urgency := none, isActive := true }

/-- The empty contact update. -/
def dtoContactEmpty : UpdateContactDto :=
  { name := none, phone := none, email := none, cpf := none, status := none
    notes := none, assignedTo := none, tags := none, urgency := none }

/-- An active contact of agency 10 assigned to user 2 (not to the agent 1). -/
def cC4 : Contact :=
  { id := 5, name := "Caio", phone := "5522", email := none, cpf := none
    origin := ContactOrigin.phone, status := ContactStatus.contacted, agency := some 10
    assignedTo := some 2, tags := [], notes := none, urgency := none, isActive := true }

/-- A contact filter naming user 2 as `assignedTo`. -/
def fC4 : ContactFilters :=
  { status := none, origin := none, agency := none, assignedTo := some 2, tags := []
    urgency := none }

/-- An active property of agency 10 owned by user 2 (not by the agent 1). -/
def pC4 : Property :=
  { id := 8, type := PropertyType.house, transactionType := TransactionType.sale
    title := "Casa2", description := "d", price := 200, area := 120
    address := { street := "r", number := "3", neighborhood := "n", city := "SP"
                 state := "SP", zipCode := "0" }
    features := { bedrooms := 3, bathrooms := 2, suites := 1, parkingSpaces := 2 }
    status := PropertyStatus.available, agency := 10, owner := 2, isActive := true }

/-- A registration request whose role field is present but empty. -/
def dtoC5 : RegisterDto :=
  { email := "new@x.com", password := "pw", name := "Novo", phone := none, role := some "" }

/-- A registration request that supplies role "admin". -/
def dtoC5admin : RegisterDto :=
  { email := "boss@x.com", password := "pw", name := "Chefe", phone := none
    role := some "admin" }

/-- A draft campaign of agency 10 targeting contact 7, no rate limit. -/
def campC6 : Campaign :=
  { id := 3, name := "c6", type := CampaignType.broadcast, status := CampaignStatus.draft
    audience := { targetAgency := none, targetStatus := [], targetTags := []
                  specificContacts := [7, 9] }
    message := { template := "Oi", «variables» := [] }
    evolutionInstanceId := "inst"
    statistics := { totalContacts := 2, sent := 0, delivered := 0, readCount := 0
                    replied := 0, failed := 0 }
    createdBy := 2, agency := 10, isActive := true, rateLimitMs := 0 }

/-- An active contact with id 9 in agency 10. -/
def contC6 : Contact :=
  { id := 9, name := "Dai", phone := "5533", email := none, cpf := none
    origin := ContactOrigin.referral, status := ContactStatus.qualified, agency := some 10
    assignedTo := none, tags := [], notes := none, urgency := none, isActive := true }

/-- An active contact with id 7 in agency 10. -/
def contC6b : Contact :=
  { id := 7, name := "Gil", phone := "5566", email := none, cpf := none
    origin := ContactOrigin.website, status := ContactStatus.contacted, agency := some 10
    assignedTo := none, tags := [], notes := none, urgency := none, isActive := true }

/-- A bridge outcome oracle under which only contact 9 is delivered. -/
def sendOkC6 : Id → Bool := fun cid => cid == 9

/-- A global admin with no tenant binding. -/
def adminU : AuthenticatedUser :=
  { userId := 99, email := "root@x.com", role := UserRole.admin, agencyId := none }

/-- A session holding one user message, mid-thinking. -/
def sessC7 : AgentSession :=
  { messages := [{ role := "user", content := "oi", toolName := none }]
    agentStatus := AgentStatus.thinking, messageCount := 1 }

/-- A provider response with one tool call whose name is not in the
registry. -/
def respC7 : OpenAIResponseMessage :=
  { toolCalls := [{ type := "function", name := "unknown_tool", arguments := "" }]
    content := none }

/-- A provider response with one registered tool call. -/
def respC7ok : OpenAIResponseMessage :=
  { toolCalls := [{ type := "function", name := "search_properties", arguments := "" }]
    content := none }

/-- A provider response carrying final text and no tool calls. -/
def respC7text : OpenAIResponseMessage :=
  { toolCalls := [], content := some "pronto" }

/-- A draft campaign of agency 10 targeting contact 7, rate limit 1000 ms. -/
def campC8 : Campaign :=
  { id := 4, name := "c8", type := CampaignType.broadcast, status := CampaignStatus.draft
    audience := { targetAgency := none, targetStatus := [], targetTags := []
                  specificContacts := [7] }
    message := { template := "Oi", «variables» := [] }
    evolutionInstanceId := "inst"
    statistics := { totalContacts := 1, sent := 0, delivered := 0, readCount := 0
                    replied := 0, failed := 0 }
    createdBy := 2, agency := 10, isActive := true, rateLimitMs := 1000 }

/-- A contact whose name is nonempty. -/
def contC9 : Contact :=
  { id := 11, name := "Eva", phone := "5544", email := none, cpf := none
    origin := ContactOrigin.other, status := ContactStatus.«new», agency := some 10
    assignedTo := none, tags := [], notes := none, urgency := none, isActive := true }

/-- A contact whose name is empty (falsy in JS). -/
def contC9b : Contact :=
  { id := 12, name := "", phone := "5555", email := none, cpf := none
    origin := ContactOrigin.other, status := ContactStatus.«new», agency := some 10
    assignedTo := none, tags := [], notes := none, urgency := none, isActive := true }

/-- The variables map of the C9 counterexample: the value of "a" contains
the placeholder of "b", which only a second rendering pass resolves. -/
def varsC9 : List (String × String) :=
  [("b", "x"), ("a", "\x7b\x7bb\x7d\x7d")]

/-- An agency owned by user 7 with one other member. -/
def agC10 : Agency :=
  { id := 1, name := "Ag", cnpj := "123", owner := 7, members := [8], isActive := true }

/-- A viewer of agency 1 who is neither admin nor the owner. -/
def viewerC10 : AuthenticatedUser :=
  { userId := 9, email := "viewer@x.com", role := UserRole.viewer, agencyId := some 1 }

/-! ## Helper lemmas -/

theorem applyContactFilters_agency (f : Option ContactFilters) (q : ContactQuery) :
    (applyContactFilters f q).agency = q.agency := by
  cases f <;> rfl

theorem applyPropertyFilters_agency (f : Option PropertyFilters) (q : PropertyQuery) :
    (applyPropertyFilters f q).agency = q.agency := by
  cases f <;> rfl

theorem contacts_findAllQuery_nonadmin {u : AuthenticatedUser} {f : Option ContactFilters}
    {q : ContactQuery} (hrole : u.role ≠ UserRole.admin)
    (hq : ContactsService.findAllQuery u f = Except.ok q) :
    ∃ a, u.agencyId = some a ∧ q.agency = some a := by
  unfold ContactsService.findAllQuery at hq
  rw [if_neg hrole] at hq
  cases hA : u.agencyId with
  | none => rw [hA] at hq; cases hq
  | some a =>
    rw [hA] at hq
    simp only [Except.ok.injEq] at hq
    refine ⟨a, rfl, ?_⟩
    rw [← hq, applyContactFilters_agency]
    split <;> rfl

theorem properties_findAllQuery_nonadmin {u : AuthenticatedUser} {f : Option PropertyFilters}
    {q : PropertyQuery} (hrole : u.role ≠ UserRole.admin)
    (hq : PropertiesService.findAllQuery u f = Except.ok q) :
    ∃ a, u.agencyId = some a ∧ q.agency = some a := by
  unfold PropertiesService.findAllQuery at hq
  rw [if_neg hrole] at hq
  cases hA : u.agencyId with
  | none => rw [hA] at hq; cases hq
  | some a =>
    rw [hA] at hq
    simp only [Except.ok.injEq] at hq
    exact ⟨a, rfl, by rw [← hq, applyPropertyFilters_agency]⟩

theorem campaigns_findAllQuery_nonadmin {u : AuthenticatedUser} {f : Option CampaignFilters}
    {q : CampaignQuery} (hrole : u.role ≠ UserRole.admin)
    (hq : CampaignsService.findAllQuery u f = Except.ok q) :
    ∃ a, u.agencyId = some a ∧ q.agency = some a := by
  unfold CampaignsService.findAllQuery at hq
  simp only [if_neg hrole] at hq
  cases hA : u.agencyId with
  | none => simp only [hA, reduceCtorEq] at hq
  | some a =>
    simp only [hA, Except.ok.injEq] at hq
    refine ⟨a, rfl, ?_⟩
    rw [← hq]
    cases f <;> rfl

theorem contactMatches_agency {q : ContactQuery} {c : Contact} {a : Id}
    (hq : q.agency = some a) (h : contactMatches q c = true) : c.agency = some a := by
  unfold contactMatches at h
  rw [hq] at h
  simp only [matchOpt, Bool.and_eq_true, beq_iff_eq] at h
  exact h.1.1.1.1.1.2

theorem propertyMatches_agency {q : PropertyQuery} {p : Property} {a : Id}
    (hq : q.agency = some a) (h : propertyMatches q p = true) : p.agency = a := by
  unfold propertyMatches at h
  rw [hq] at h
  simp only [matchOpt, Bool.and_eq_true, beq_iff_eq] at h
  exact h.1.1.1.1.1.1.1.1.1.1.1.1.1.2

theorem campaignMatches_agency {q : CampaignQuery} {c : Campaign} {a : Id}
    (hq : q.agency = some a) (h : campaignMatches q c = true) : c.agency = a := by
  unfold campaignMatches at h
  rw [hq] at h
  simp only [matchOpt, Bool.and_eq_true, beq_iff_eq] at h
  exact h.1.1.2

/-! ## Claim C1 -/

/-- C1: for every actor whose role is not admin and every listing operation
over properties, contacts, or campaigns, every document in the returned list
has its agency equal to the actor's agencyId (tenant isolation of
listings). -/
theorem C1_listing_tenant_isolation :
    (∀ (u : AuthenticatedUser) (f : Option PropertyFilters) (db docs : List Property),
      u.role ≠ UserRole.admin → PropertiesService.findAll u f db = Except.ok docs →
      ∀ p ∈ docs, some p.agency = u.agencyId) ∧
    (∀ (u : AuthenticatedUser) (f : Option ContactFilters) (db docs : List Contact),
      u.role ≠ UserRole.admin → ContactsService.findAll u f db = Except.ok docs →
      ∀ c ∈ docs, c.agency = u.agencyId) ∧
    (∀ (u : AuthenticatedUser) (f : Option CampaignFilters) (db docs : List Campaign),
      u.role ≠ UserRole.admin → CampaignsService.findAll u f db = Except.ok docs →
      ∀ c ∈ docs, some c.agency = u.agencyId) := by
  refine ⟨?_, ?_, ?_⟩
  · intro u f db docs hrole hok p hp
    unfold PropertiesService.findAll at hok
    cases hq : PropertiesService.findAllQuery u f with
    | error e => rw [hq] at hok; cases hok
    | ok q =>
      rw [hq] at hok
      simp only [Except.ok.injEq] at hok
      obtain ⟨a, hA, hqa⟩ := properties_findAllQuery_nonadmin hrole hq
      rw [← hok] at hp
      rw [hA]
      exact congrArg some (propertyMatches_agency hqa (List.of_mem_filter hp))
  · intro u f db docs hrole hok c hc
    unfold ContactsService.findAll at hok
    cases hq : ContactsService.findAllQuery u f with
    | error e => rw [hq] at hok; cases hok
    | ok q =>
      rw [hq] at hok
      simp only [Except.ok.injEq] at hok
      obtain ⟨a, hA, hqa⟩ := contacts_findAllQuery_nonadmin hrole hq
      rw [← hok] at hc
      rw [hA]
      exact contactMatches_agency hqa (List.of_mem_filter hc)
  · intro u f db docs hrole hok c hc
    unfold CampaignsService.findAll at hok
    cases hq : CampaignsService.findAllQuery u f with
    | error e => rw [hq] at hok; cases hok
    | ok q =>
      rw [hq] at hok
      simp only [Except.ok.injEq] at hok
      obtain ⟨a, hA, hqa⟩ := campaigns_findAllQuery_nonadmin hrole hq
      rw [← hok] at hc
      rw [hA]
      exact congrArg some (campaignMatches_agency hqa (List.of_mem_filter hc))

/-- C1 witness: the theorem applied to a manager of agency 10 listing one
property of agency 10. -/
theorem C1_listing_tenant_isolation_witness :
    ∀ p ∈ [pC1], some p.agency = uC1.agencyId :=
  C1_listing_tenant_isolation.1 uC1 none [pC1] [pC1] (by decide) (by decide)

/-! ## Claim C2 -/

/-- C2: for every campaign whose audience specifies a non-empty explicit
contact-id list, the resolved audience is exactly the active contacts
matching those ids, with no filter on the contact's owning agency (and
`calculateAudienceCount` just returns the id-list length), so the resolved
audience may contain contacts of a different tenant than the campaign's. -/
theorem C2_specific_contacts_cross_tenant :
    (∀ (campaign : Campaign) (contactsDb : List Contact) (c : Contact),
      campaign.audience.specificContacts ≠ [] →
      c ∈ contactsDb → c.isActive = true → c.id ∈ campaign.audience.specificContacts →
      c ∈ CampaignsService.getAudienceContacts campaign contactsDb) ∧
    (∀ (campaign : Campaign) (contactsDb : List Contact) (c : Contact),
      campaign.audience.specificContacts ≠ [] →
      c ∈ CampaignsService.getAudienceContacts campaign contactsDb →
      c.id ∈ campaign.audience.specificContacts ∧ c.isActive = true) ∧
    (∀ (audience : CampaignAudience) (agencyId : Id) (contactsDb : List Contact),
      audience.specificContacts ≠ [] →
      CampaignsService.calculateAudienceCount audience agencyId contactsDb =
        audience.specificContacts.length) ∧
    (∃ (campaign : Campaign) (contactsDb : List Contact) (c : Contact),
      campaign.audience.specificContacts ≠ [] ∧
      c ∈ CampaignsService.getAudienceContacts campaign contactsDb ∧
      c.agency ≠ some campaign.agency) := by
  refine ⟨?_, ?_, ?_, ?_⟩
  · intro campaign contactsDb c hne hc hact hid
    unfold CampaignsService.getAudienceContacts
    rw [if_pos hne]
    exact List.mem_filter.mpr ⟨hc, by simp [hact, hid]⟩
  · intro campaign contactsDb c hne hmem
    unfold CampaignsService.getAudienceContacts at hmem
    rw [if_pos hne] at hmem
    have h := List.of_mem_filter hmem
    simp only [Bool.and_eq_true] at h
    exact ⟨List.mem_of_elem_eq_true h.1, h.2⟩
  · intro audience agencyId contactsDb hne
    unfold CampaignsService.calculateAudienceCount
    rw [if_pos hne]
  · exact ⟨campC2, [contC2], contC2, by decide, by decide, by decide⟩

/-- C2 witness: the membership direction applied to the cross-tenant
contact 7 of agency 99 targeted by a campaign of agency 10. -/
theorem C2_specific_contacts_cross_tenant_witness :
    contC2 ∈ CampaignsService.getAudienceContacts campC2 [contC2] :=
  C2_specific_contacts_cross_tenant.1 campC2 [contC2] contC2 (by decide) (by decide)
    (by decide) (by decide)

/-! ## Claim C3 -/

/-- C3 counterexample: an agent who owns (created) a property is still
Forbidden from updating it — `PropertiesService.update` rejects every
agent unconditionally, refuting the claim that update is allowed on
resources whose createdBy equals the actor. -/
theorem C3_counterexample :
    uC3.role = UserRole.agent ∧ pC3.owner = uC3.userId ∧ pC3.isActive = true ∧
    PropertiesService.update [pC3] 5 dtoPropEmpty uC3 =
      Except.error (ApiError.forbidden "Você não tem permissão para modificar imóveis") := by
  decide

/-- C3 (amended): for agent actors, only the contact update honours
ownership (a contact assigned to the agent is updatable); property update
and contact delete are Forbidden for agents regardless of the
assignedTo/createdBy reference. -/
theorem C3_agent_ownership_operations :
    (∀ (db : List Contact) (id : Id) (dto : UpdateContactDto) (u : AuthenticatedUser)
      (c : Contact), u.role = UserRole.agent → db.find? (fun x => x.id == id) = some c →
      c.assignedTo = some u.userId →
      ContactsService.update db id dto u = Except.ok (applyContactUpdate c dto)) ∧
    (∀ (db : List Property) (id : Id) (dto : UpdatePropertyDto) (u : AuthenticatedUser)
      (p : Property), u.role = UserRole.agent → db.find? (fun x => x.id == id) = some p →
      PropertiesService.update db id dto u =
        Except.error (ApiError.forbidden "Você não tem permissão para modificar imóveis")) ∧
    (∀ (db : List Contact) (id : Id) (u : AuthenticatedUser) (c : Contact),
      u.role = UserRole.agent → db.find? (fun x => x.id == id) = some c →
      ContactsService.remove db id u =
        Except.error (ApiError.forbidden "Você não tem permissão para deletar contatos")) := by
  refine ⟨?_, ?_, ?_⟩
  · intro db id dto u c hrole hfind hassigned
    unfold ContactsService.update
    rw [hfind]
    simp [hrole, hassigned]
  · intro db id dto u p hrole hfind
    unfold PropertiesService.update
    rw [hfind]
    simp [hrole]
  · intro db id u c hrole hfind
    unfold ContactsService.remove
    rw [hfind]
    simp [hrole]

/-- C3 witness: the amended theorem applied to agent 1 of agency 10 and
concrete owned resources. -/
theorem C3_agent_ownership_operations_witness :
    ContactsService.update [cC3] 6 dtoContactEmpty uC3 =
      Except.ok (applyContactUpdate cC3 dtoContactEmpty) ∧
    PropertiesService.update [pC3] 5 dtoPropEmpty uC3 =
      Except.error (ApiError.forbidden "Você não tem permissão para modificar imóveis") ∧
    ContactsService.remove [cC3] 6 uC3 =
      Except.error (ApiError.forbidden "Você não tem permissão para deletar contatos") :=
  ⟨C3_agent_ownership_operations.1 [cC3] 6 dtoContactEmpty uC3 cC3 (by decide) (by decide)
      (by decide),
   C3_agent_ownership_operations.2.1 [pC3] 5 dtoPropEmpty uC3 pC3 (by decide) (by decide),
   C3_agent_ownership_operations.2.2 [cC3] 6 uC3 cC3 (by decide) (by decide)⟩

/-! ## Claim C4 -/

/-- C4 counterexample: an agent listing contacts with a caller-supplied
`assignedTo` filter naming user 2 receives a contact assigned to user 2 —
the filter block of `ContactsService.findAll` overwrites the RBAC scoping,
refuting the claim that agent listings never return another user's
resources. -/
theorem C4_counterexample :
    uC3.role = UserRole.agent ∧
    ContactsService.findAll uC3 (some fC4) [cC4] = Except.ok [cC4] ∧
    cC4.assignedTo ≠ some uC3.userId := by
  decide

/-- The `assignedTo` component of the built contact query, when the filters
do not name one. -/
theorem applyContactFilters_assignedTo_none (f : Option ContactFilters) (q : ContactQuery)
    (hf : match f with | none => True | some ff => ff.assignedTo = none) :
    (applyContactFilters f q).assignedTo = q.assignedTo := by
  cases f with
  | none => rfl
  | some ff => simp only [applyContactFilters, hf]

theorem contacts_findAllQuery_agent {u : AuthenticatedUser} {f : Option ContactFilters}
    {q : ContactQuery} (hrole : u.role = UserRole.agent)
    (hf : match f with | none => True | some ff => ff.assignedTo = none)
    (hq : ContactsService.findAllQuery u f = Except.ok q) :
    q.assignedTo = some u.userId := by
  unfold ContactsService.findAllQuery at hq
  rw [if_neg (by simp [hrole])] at hq
  cases hA : u.agencyId with
  | none => rw [hA] at hq; cases hq
  | some a =>
    rw [hA] at hq
    simp only [hrole, reduceIte, Except.ok.injEq] at hq
    rw [← hq, applyContactFilters_assignedTo_none f _ hf]

theorem contactMatches_assignedTo {q : ContactQuery} {c : Contact} {a : Id}
    (hq : q.assignedTo = some a) (h : contactMatches q c = true) : c.assignedTo = some a := by
  unfold contactMatches at h
  rw [hq] at h
  simp only [matchOpt, Bool.and_eq_true, beq_iff_eq] at h
  exact h.1.1.1.1.2

/-- C4 (amended): for agent actors, the contact listing is scoped to the
agent's own contacts only when the caller supplies no `assignedTo` filter (a
supplied filter replaces the scoping, though the agency scoping survives any
filter); contact update by an agent still fails on contacts assigned to
someone else; and the property listing for agents is scoped by agency only,
not by assignee. -/
theorem C4_agent_listing_scoping :
    (∀ (u : AuthenticatedUser) (f : Option ContactFilters) (db docs : List Contact),
      u.role = UserRole.agent →
      (match f with | none => True | some ff => ff.assignedTo = none) →
      ContactsService.findAll u f db = Except.ok docs →
      ∀ c ∈ docs, c.assignedTo = some u.userId) ∧
    (∀ (u : AuthenticatedUser) (f : Option ContactFilters) (db docs : List Contact),
      u.role = UserRole.agent → ContactsService.findAll u f db = Except.ok docs →
      ∀ c ∈ docs, c.agency = u.agencyId) ∧
    (∀ (db : List Contact) (id : Id) (dto : UpdateContactDto) (u : AuthenticatedUser)
      (c : Contact), u.role = UserRole.agent → db.find? (fun x => x.id == id) = some c →
      c.assignedTo ≠ some u.userId →
      ContactsService.update db id dto u =
        Except.error (ApiError.forbidden "Você só pode modificar seus próprios contatos")) ∧
    (∃ (u : AuthenticatedUser) (f : Option PropertyFilters) (db : List Property)
      (p : Property), u.role = UserRole.agent ∧
      PropertiesService.findAll u f db = Except.ok [p] ∧ p.owner ≠ u.userId) := by
  refine ⟨?_, ?_, ?_, ?_⟩
  · intro u f db docs hrole hf hok c hc
    unfold ContactsService.findAll at hok
    cases hq : ContactsService.findAllQuery u f with
    | error e => rw [hq] at hok; cases hok
    | ok q =>
      rw [hq] at hok
      simp only [Except.ok.injEq] at hok
      rw [← hok] at hc
      exact contactMatches_assignedTo (contacts_findAllQuery_agent hrole hf hq)
        (List.of_mem_filter hc)
  · intro u f db docs hrole hok c hc
    unfold ContactsService.findAll at hok
    cases hq : ContactsService.findAllQuery u f with
    | error e => rw [hq] at hok; cases hok
    | ok q =>
      rw [hq] at hok
      simp only [Except.ok.injEq] at hok
      obtain ⟨a, hA, hqa⟩ := contacts_findAllQuery_nonadmin (by simp [hrole]) hq
      rw [← hok] at hc
      rw [hA]
      exact contactMatches_agency hqa (List.of_mem_filter hc)
  · intro db id dto u c hrole hfind hassigned
    unfold ContactsService.update
    rw [hfind]
    simp [hrole, hassigned]
  · exact ⟨uC3, none, [pC4], pC4, by decide, by decide, by decide⟩

/-- C4 witness: the amended theorem applied to agent 1 listing without an
`assignedTo` filter and updating a contact assigned to user 2. -/
theorem C4_agent_listing_scoping_witness :
    (∀ c ∈ [cC3], c.assignedTo = some uC3.userId) ∧
    (∀ c ∈ [cC3], c.agency = uC3.agencyId) ∧
    ContactsService.update [cC4] 5 dtoContactEmpty uC3 =
      Except.error (ApiError.forbidden "Você só pode modificar seus próprios contatos") :=
  ⟨C4_agent_listing_scoping.1 uC3 none [cC3] [cC3] (by decide) trivial (by decide),
   C4_agent_listing_scoping.2.1 uC3 none [cC3] [cC3] (by decide) (by decide),
   C4_agent_listing_scoping.2.2.1 [cC4] 5 dtoContactEmpty uC3 cC4 (by decide) (by decide)
     (by decide)⟩

/-! ## Claim C5 -/

/-- C5 counterexample: a registration that supplies the role field with the
empty string stores "viewer", so the role is neither stored as given nor is
"viewer" reserved for requests that omit the field (JS `role || 'viewer'`
treats the empty string as absent). -/
theorem C5_counterexample :
    dtoC5.role = some "" ∧
    AuthService.register [] dtoC5 =
      Except.ok { email := "new@x.com", password := "pw", name := "Novo", phone := none
                  role := "viewer", agencyId := none, isActive := true } ∧
    ("" : String) ≠ "viewer" := by
  decide

/-- C5 (amended): registration defaults the role to "viewer" when the role
field is omitted or empty; any other supplied role string is stored as given
provided it is one of the user schema's enum values — in particular "admin"
is stored with no prior authorization — and a value outside the enum fails
schema validation. -/
theorem C5_register_role_handling :
    ∀ (db : List StoredUser) (dto : RegisterDto),
      db.any (fun u => u.email == dto.email) = false →
      ((dto.role = none ∨ dto.role = some "") →
        ∃ u, AuthService.register db dto = Except.ok u ∧ u.role = "viewer") ∧
      (∀ r, dto.role = some r → r ≠ "" → r ∈ UserRole.values →
        ∃ u, AuthService.register db dto = Except.ok u ∧ u.role = r) ∧
      (∀ r, dto.role = some r → r ≠ "" → r ∉ UserRole.values →
        ∃ m, AuthService.register db dto = Except.error (ApiError.validation m)) := by
  intro db dto hne
  refine ⟨?_, ?_, ?_⟩
  · intro hrole
    unfold AuthService.register
    rw [hne]
    rcases hrole with h | h <;> simp [h, UserRole.values]
  · intro r hrole hrne hmem
    unfold AuthService.register
    rw [hne]
    simp only [Bool.false_eq_true, if_false, hrole, if_neg hrne]
    rw [if_pos (by simpa using List.elem_eq_true_of_mem hmem)]
    exact ⟨_, rfl, rfl⟩
  · intro r hrole hrne hmem
    unfold AuthService.register
    rw [hne]
    simp only [Bool.false_eq_true, if_false, hrole, if_neg hrne]
    rw [if_neg (by simpa using fun h => hmem (List.mem_of_elem_eq_true h))]
    exact ⟨_, rfl⟩

/-- C5 witness: the amended theorem applied to a fresh store and a request
supplying role "admin". -/
theorem C5_register_role_handling_witness :
    ∃ u, AuthService.register [] dtoC5admin = Except.ok u ∧ u.role = "admin" :=
  (C5_register_role_handling [] dtoC5admin (by decide)).2.1 "admin" (by decide) (by decide)
    (by decide)

/-! ## Claim C6 -/

/-- The send loop accounts every audience contact exactly once: sent plus
failed equals the audience length. -/
theorem sendLoop_sent_failed (campaign : Campaign) (sendOk : Id → Bool) :
    ∀ contacts : List Contact,
      (CampaignsService.sendLoop campaign sendOk contacts).1 +
        (CampaignsService.sendLoop campaign sendOk contacts).2.1 = contacts.length := by
  intro contacts
  induction contacts with
  | nil => rfl
  | cons c rest ih =>
    rcases hx : CampaignsService.sendLoop campaign sendOk rest with ⟨s, f, t⟩
    rw [hx] at ih
    have ih' : s + f = rest.length := by simpa using ih
    simp only [CampaignsService.sendLoop, hx, List.length_cons]
    cases hok : sendOk c.id <;> simp <;> omega

/-- The audience resolution reads only the campaign's audience and agency,
so the status save preceding it is irrelevant to it. -/
theorem getAudienceContacts_status (campaign : Campaign) (s : CampaignStatus)
    (contactsDb : List Contact) :
    CampaignsService.getAudienceContacts { campaign with status := s } contactsDb =
      CampaignsService.getAudienceContacts campaign contactsDb := rfl

/-- C6: for a campaign that exists, passes the RBAC check and is neither
running nor completed, execute with an empty resolved audience persists
status completed and returns BadRequest; with a non-empty audience of size n
it completes with persisted statistics satisfying sent + failed = n (each
per-contact failure being caught and counted rather than aborting). -/
theorem C6_execute_statistics :
    ∀ (campaignsDb : List Campaign) (contactsDb : List Contact) (sendOk : Id → Bool)
      (id : Id) (u : AuthenticatedUser) (campaign : Campaign),
      campaignsDb.find? (fun c => c.id == id) = some campaign →
      (u.role = UserRole.admin ∨ u.agencyId = some campaign.agency) →
      campaign.status ≠ CampaignStatus.running →
      campaign.status ≠ CampaignStatus.completed →
      (CampaignsService.getAudienceContacts campaign contactsDb = [] →
        (CampaignsService.execute campaignsDb contactsDb sendOk id u).result =
          Except.error (ApiError.badRequest "Nenhum contato encontrado na audiência") ∧
        ∃ c, (CampaignsService.execute campaignsDb contactsDb sendOk id u).final = some c ∧
          c.status = CampaignStatus.completed) ∧
      (CampaignsService.getAudienceContacts campaign contactsDb ≠ [] →
        ∃ msg c, (CampaignsService.execute campaignsDb contactsDb sendOk id u).result =
            Except.ok msg ∧
          (CampaignsService.execute campaignsDb contactsDb sendOk id u).final = some c ∧
          c.status = CampaignStatus.completed ∧
          c.statistics.sent + c.statistics.failed =
            (CampaignsService.getAudienceContacts campaign contactsDb).length) := by
  intro campaignsDb contactsDb sendOk id u campaign hfind hperm hrun hcomp
  have hperm' : ¬ (u.role ≠ UserRole.admin ∧ some campaign.agency ≠ u.agencyId) := by
    rcases hperm with h | h
    · exact fun hc => hc.1 h
    · exact fun hc => hc.2 h.symm
  constructor
  · intro hempty
    unfold CampaignsService.execute
    rw [hfind]
    simp only [if_neg hperm', if_neg hrun, if_neg hcomp, getAudienceContacts_status, hempty,
      reduceIte]
    exact ⟨trivial, _, rfl, rfl⟩
  · intro hne
    unfold CampaignsService.execute
    rw [hfind]
    simp only [if_neg hperm', if_neg hrun, if_neg hcomp, getAudienceContacts_status, hne,
      reduceIte]
    rcases hx : CampaignsService.sendLoop { campaign with status := CampaignStatus.running }
        sendOk (CampaignsService.getAudienceContacts campaign contactsDb) with ⟨s, f, t⟩
    simp only [hx]
    refine ⟨_, _, rfl, rfl, rfl, ?_⟩
    have hcount := sendLoop_sent_failed { campaign with status := CampaignStatus.running }
      sendOk (CampaignsService.getAudienceContacts campaign contactsDb)
    rw [hx] at hcount
    simpa using hcount

/-- C6 witness: the theorem applied to an admin running a draft campaign
over an audience of two contacts, one of which the bridge fails to
deliver. -/
theorem C6_execute_statistics_witness :
    ∃ msg c,
      (CampaignsService.execute [campC6] [contC6b, contC6] sendOkC6 3 adminU).result =
        Except.ok msg ∧
      (CampaignsService.execute [campC6] [contC6b, contC6] sendOkC6 3 adminU).final = some c ∧
      c.status = CampaignStatus.completed ∧
      c.statistics.sent + c.statistics.failed =
        (CampaignsService.getAudienceContacts campC6 [contC6b, contC6]).length :=
  (C6_execute_statistics [campC6] [contC6b, contC6] sendOkC6 3 adminU campC6 (by decide)
    (Or.inl rfl) (by decide) (by decide)).2 (by decide)

/-! ## Claim C7 -/

/-- C7 counterexample: a provider response containing exactly one tool call
whose name resolves to no registered tool appends zero transcript entries
before the provider is re-invoked, refuting the claim that a response with N
tool calls appends exactly N tool-result entries. -/
theorem C7_counterexample :
    respC7.toolCalls.length = 1 ∧
    (AgentsService.executeWithOpenAIStep sessC7 respC7 (fun _ _ => "")).1.messages.length =
      sessC7.messages.length ∧
    (AgentsService.executeWithOpenAIStep sessC7 respC7 (fun _ _ => "")).2 = true := by
  decide

theorem length_filterMap_isSome {α β : Type} (f : α → Option β) (l : List α) :
    (l.filterMap f).length = (l.filter (fun a => (f a).isSome)).length := by
  induction l with
  | nil => rfl
  | cons x xs ih =>
    cases hfx : f x <;> simp [List.filterMap_cons, List.filter_cons, hfx, ih]

theorem executeWithOpenAIStep_length (s : AgentSession) (r : OpenAIResponseMessage)
    (t : String → String → String) (htc : r.toolCalls ≠ []) :
    (AgentsService.executeWithOpenAIStep s r t).1.messages.length =
      s.messages.length + (r.toolCalls.filter (fun tc =>
        tc.type == "function" && AgentsService.toolNames.contains tc.name)).length := by
  unfold AgentsService.executeWithOpenAIStep
  rw [if_pos htc]
  simp only [List.length_append, length_filterMap_isSome]
  refine congrArg (s.messages.length + ·) (congrArg List.length (List.filter_congr ?_))
  intro tc _
  by_cases h1 : tc.type = "function"
  · by_cases h2 : tc.name ∈ AgentsService.toolNames <;> simp [h1, h2]
  · simp [h1]

theorem executeWithGeminiStep_length (s : AgentSession) (r : GeminiResponse)
    (t : String → String → String) (htc : r.functionCalls ≠ []) :
    (AgentsService.executeWithGeminiStep s r t).1.messages.length =
      s.messages.length + (r.functionCalls.filter (fun call =>
        AgentsService.toolNames.contains call.name)).length := by
  unfold AgentsService.executeWithGeminiStep
  rw [if_pos htc]
  simp only [List.length_append, length_filterMap_isSome]
  refine congrArg (s.messages.length + ·) (congrArg List.length (List.filter_congr ?_))
  intro call _
  by_cases h2 : call.name ∈ AgentsService.toolNames <;> simp [h2]

/-- C7 (amended): a response with zero tool calls and (per the provider
contract) non-empty text appends exactly one assistant entry and ends with
`agentStatus = idle`; a response with tool calls appends exactly one
tool-result entry per call whose name resolves in the registry (and, for
OpenAI, whose type is `'function'`) before the provider is invoked again —
so N recognized calls append N entries, but unrecognized calls are silently
skipped. -/
theorem C7_turn_transcript_appends :
    (∀ (s : AgentSession) (r : OpenAIResponseMessage) (t : String → String → String)
      (c : String), r.toolCalls = [] → r.content = some c → c ≠ "" →
      (AgentsService.executeWithOpenAIStep s r t).1.messages =
        s.messages ++ [{ role := "assistant", content := c, toolName := none }] ∧
      (AgentsService.executeWithOpenAIStep s r t).1.agentStatus = AgentStatus.idle ∧
      (AgentsService.executeWithOpenAIStep s r t).2 = false) ∧
    (∀ s r t, r.toolCalls ≠ [] →
      (AgentsService.executeWithOpenAIStep s r t).1.messages.length =
        s.messages.length + (r.toolCalls.filter (fun tc =>
          tc.type == "function" && AgentsService.toolNames.contains tc.name)).length ∧
      (AgentsService.executeWithOpenAIStep s r t).1.agentStatus = AgentStatus.executing ∧
      (AgentsService.executeWithOpenAIStep s r t).2 = true) ∧
    (∀ s r t, r.toolCalls ≠ [] →
      (∀ tc ∈ r.toolCalls, tc.type = "function" ∧ tc.name ∈ AgentsService.toolNames) →
      (AgentsService.executeWithOpenAIStep s r t).1.messages.length =
        s.messages.length + r.toolCalls.length) ∧
    (∀ (s : AgentSession) (r : GeminiResponse) (t : String → String → String),
      r.functionCalls = [] → r.text ≠ "" →
      (AgentsService.executeWithGeminiStep s r t).1.messages =
        s.messages ++ [{ role := "assistant", content := r.text, toolName := none }] ∧
      (AgentsService.executeWithGeminiStep s r t).1.agentStatus = AgentStatus.idle) ∧
    (∀ s r t, r.functionCalls ≠ [] →
      (∀ call ∈ r.functionCalls, call.name ∈ AgentsService.toolNames) →
      (AgentsService.executeWithGeminiStep s r t).1.messages.length =
        s.messages.length + r.functionCalls.length) := by
  refine ⟨?_, ?_, ?_, ?_, ?_⟩
  · intro s r t c hempty hc hcne
    simp [AgentsService.executeWithOpenAIStep, hempty, hc, hcne]
  · intro s r t htc
    refine ⟨executeWithOpenAIStep_length s r t htc, ?_, ?_⟩ <;>
      · unfold AgentsService.executeWithOpenAIStep
        rw [if_pos htc]
  · intro s r t htc hall
    rw [executeWithOpenAIStep_length s r t htc]
    have : r.toolCalls.filter (fun tc =>
        tc.type == "function" && AgentsService.toolNames.contains tc.name) = r.toolCalls := by
      refine List.filter_eq_self.mpr ?_
      intro tc htcmem
      have := hall tc htcmem
      simp [this.1, this.2]
    rw [this]
  · intro s r t hempty htext
    simp [AgentsService.executeWithGeminiStep, hempty, htext]
  · intro s r t htc hall
    rw [executeWithGeminiStep_length s r t htc]
    have : r.functionCalls.filter (fun call =>
        AgentsService.toolNames.contains call.name) = r.functionCalls := by
      refine List.filter_eq_self.mpr ?_
      intro call hmem
      simpa using List.elem_eq_true_of_mem (hall call hmem)
    rw [this]

/-- C7 witness: the amended theorem applied to a final-text response and to
a single recognized tool call. -/
theorem C7_turn_transcript_appends_witness :
    ((AgentsService.executeWithOpenAIStep sessC7 respC7text (fun _ _ => "")).1.messages =
      sessC7.messages ++ [{ role := "assistant", content := "pronto", toolName := none }] ∧
    (AgentsService.executeWithOpenAIStep sessC7 respC7text (fun _ _ => "")).1.agentStatus =
      AgentStatus.idle ∧
    (AgentsService.executeWithOpenAIStep sessC7 respC7text (fun _ _ => "")).2 = false) ∧
    (AgentsService.executeWithOpenAIStep sessC7 respC7ok (fun _ _ => "ok")).1.messages.length =
      sessC7.messages.length + respC7ok.toolCalls.length :=
  ⟨C7_turn_transcript_appends.1 sessC7 respC7text (fun _ _ => "") "pronto" (by decide)
      (by decide) (by decide),
   C7_turn_transcript_appends.2.2.1 sessC7 respC7ok (fun _ _ => "ok") (by decide)
     (by decide)⟩

/-! ## Claim C8 -/

/-- C8 counterexample: executing a campaign with `rateLimitMs = 1000` over a
one-contact audience produces the trace delay-then-attempt — the delay IS
applied before the first send, refuting the claim that no delay precedes
it. -/
theorem C8_counterexample :
    campC8.rateLimitMs > 0 ∧
    (CampaignsService.execute [campC8] [contC6b] (fun _ => true) 4 adminU).trace =
      [SendEvent.delay, SendEvent.attempt 7 "Oi" true] := by
  decide

/-- With a positive rate limit the send loop emits a delay immediately
before every delivery attempt, including the first. -/
theorem sendLoop_trace_pos (campaign : Campaign) (sendOk : Id → Bool)
    (hrl : campaign.rateLimitMs > 0) :
    ∀ contacts : List Contact,
      (CampaignsService.sendLoop campaign sendOk contacts).2.2 =
        contacts.flatMap (fun c => [SendEvent.delay,
          SendEvent.attempt c.id
            (CampaignsService.replaceVariables campaign.message.template
              campaign.message.«variables» c) (sendOk c.id)]) := by
  intro contacts
  induction contacts with
  | nil => rfl
  | cons c rest ih =>
    rcases hx : CampaignsService.sendLoop campaign sendOk rest with ⟨s, f, t⟩
    rw [hx] at ih
    simp only [CampaignsService.sendLoop, hx, if_pos hrl, List.flatMap_cons]
    simpa using ih

/-- C8 (amended): during execution with a configured positive `rateLimitMs`,
the inter-message delay is applied before every send — including the first:
the loop trace is exactly delay-attempt repeated per audience contact. -/
theorem C8_rate_limit_every_send :
    (∀ (campaign : Campaign) (sendOk : Id → Bool) (contacts : List Contact),
      campaign.rateLimitMs > 0 →
      (CampaignsService.sendLoop campaign sendOk contacts).2.2 =
        contacts.flatMap (fun c => [SendEvent.delay,
          SendEvent.attempt c.id
            (CampaignsService.replaceVariables campaign.message.template
              campaign.message.«variables» c) (sendOk c.id)])) ∧
    (∀ (campaignsDb : List Campaign) (contactsDb : List Contact) (sendOk : Id → Bool)
      (id : Id) (u : AuthenticatedUser) (campaign : Campaign),
      campaignsDb.find? (fun c => c.id == id) = some campaign →
      (u.role = UserRole.admin ∨ u.agencyId = some campaign.agency) →
      campaign.status ≠ CampaignStatus.running →
      campaign.status ≠ CampaignStatus.completed →
      campaign.rateLimitMs > 0 →
      (CampaignsService.execute campaignsDb contactsDb sendOk id u).trace =
        (CampaignsService.getAudienceContacts campaign contactsDb).flatMap
          (fun c => [SendEvent.delay,
            SendEvent.attempt c.id
              (CampaignsService.replaceVariables campaign.message.template
                campaign.message.«variables» c) (sendOk c.id)])) := by
  constructor
  · intro campaign sendOk contacts hrl
    exact sendLoop_trace_pos campaign sendOk hrl contacts
  · intro campaignsDb contactsDb sendOk id u campaign hfind hperm hrun hcomp hrl
    have hperm' : ¬ (u.role ≠ UserRole.admin ∧ some campaign.agency ≠ u.agencyId) := by
      rcases hperm with h | h
      · exact fun hc => hc.1 h
      · exact fun hc => hc.2 h.symm
    unfold CampaignsService.execute
    rw [hfind]
    simp only [if_neg hperm', if_neg hrun, if_neg hcomp, getAudienceContacts_status]
    by_cases hempty : CampaignsService.getAudienceContacts campaign contactsDb = []
    · simp [hempty]
    · simp only [hempty, reduceIte]
      rcases hx : CampaignsService.sendLoop { campaign with status := CampaignStatus.running }
          sendOk (CampaignsService.getAudienceContacts campaign contactsDb) with ⟨s, f, t⟩
      simp only [hx]
      have := sendLoop_trace_pos { campaign with status := CampaignStatus.running } sendOk hrl
        (CampaignsService.getAudienceContacts campaign contactsDb)
      rw [hx] at this
      simpa using this

/-- C8 witness: the amended theorem applied to a one-contact audience with
`rateLimitMs = 1000`. -/
theorem C8_rate_limit_every_send_witness :
    (CampaignsService.execute [campC8] [contC6b] (fun _ => true) 4 adminU).trace =
      (CampaignsService.getAudienceContacts campC8 [contC6b]).flatMap
        (fun c => [SendEvent.delay,
          SendEvent.attempt c.id
            (CampaignsService.replaceVariables campC8.message.template
              campC8.message.«variables» c) ((fun _ => true : Id → Bool) c.id)]) :=
  C8_rate_limit_every_send.2 [campC8] [contC6b] (fun _ => true) 4 adminU campC8 (by decide)
    (Or.inl rfl) (by decide) (by decide) (by decide)

/-! ## Claim C9 -/

/-- C9 counterexample: with variables `b ↦ "x"`, `a ↦ "{{b}}"` the template
`"{{a}}"` renders to `"{{b}}"`, and rendering that output again yields
`"x"` — rendering is not idempotent, because a variable value may itself
contain a placeholder that only a later pass resolves.  Both keys are
`literalKey` and both values `dollarFree`, so on this input the literal
splice coincides with the source's regex replace and the divergence is the
program's. -/
theorem C9_counterexample :
    CampaignsService.replaceVariables "\x7b\x7ba\x7d\x7d" varsC9 contC9 = "\x7b\x7bb\x7d\x7d" ∧
    CampaignsService.replaceVariables
        (CampaignsService.replaceVariables "\x7b\x7ba\x7d\x7d" varsC9 contC9) varsC9 contC9 =
      "x" ∧
    ("\x7b\x7bb\x7d\x7d" : String) ≠ "x" := by
  decide

/-- A source without any occurrence of the pattern is left unchanged, for
every fuel. -/
theorem replaceAllAux_no_occurrence (pat rep : List Char) :
    ∀ (fuel : Nat) (s : List Char), ¬ pat <:+: s → replaceAllAux pat rep fuel s = s := by
  intro fuel
  induction fuel with
  | zero => intro s _; cases s <;> rfl
  | succ n ih =>
    intro s hs
    cases s with
    | nil => rfl
    | cons c t =>
      have hnp : ¬ (0 < pat.length ∧ pat.isPrefixOf (c :: t) = true) := by
        rintro ⟨-, hp⟩
        exact hs (List.isPrefixOf_iff_prefix.mp hp).isInfix
      rw [replaceAllAux, if_neg hnp]
      exact congrArg (c :: ·) (ih t (fun h => hs (List.infix_cons h)))

/-- String form: replacement with a pattern absent from the source is the
identity. -/
theorem replaceAllStr_no_occurrence (s pat rep : String) (h : ¬ pat.data <:+: s.data) :
    replaceAllStr s pat rep = s := by
  unfold replaceAllStr replaceAll
  rw [replaceAllAux_no_occurrence _ _ _ _ h]

/-- Every pattern `replaceVariables` builds starts with two open braces, so
a source without "\x7b\x7b" contains no occurrence of any of them. -/
theorem pattern_absent_of_brace_free (k : String) (m : List Char)
    (h : ¬ ("\x7b\x7b" : String).data <:+: m) :
    ¬ ("\x7b\x7b" ++ k ++ "\x7d\x7d" : String).data <:+: m := by
  intro hcon
  apply h
  have hpre : ("\x7b\x7b" : String).data <+: ("\x7b\x7b" ++ k ++ "\x7d\x7d" : String).data := by
    simp only [String.data_append]
    exact (List.prefix_append _ _).trans (List.prefix_append _ _)
  exact hpre.isInfix.trans hcon

/-- The variables fold leaves a brace-free message unchanged. -/
theorem foldl_replace_of_brace_free :
    ∀ (vs : List (String × String)) (m : String),
      ¬ ("\x7b\x7b" : String).data <:+: m.data →
      vs.foldl (fun m kv => replaceAllStr m ("\x7b\x7b" ++ kv.1 ++ "\x7d\x7d") kv.2) m = m := by
  intro vs
  induction vs with
  | nil => intro m _; rfl
  | cons kv rest ih =>
    intro m hm
    rw [List.foldl_cons, replaceAllStr_no_occurrence _ _ _ (pattern_absent_of_brace_free kv.1 _ hm)]
    exact ih m hm

/-- A pattern extending an absent prefix is itself absent. -/
theorem absent_pattern_mono {p pat m : List Char} (hp : p <+: pat) (h : ¬ p <:+: m) :
    ¬ pat <:+: m :=
  fun hcon => h (hp.isInfix.trans hcon)

/-- Rendering a message that contains no "\x7b\x7b" is the identity. -/
theorem replaceVariables_of_brace_free (m : String) (vs : List (String × String))
    (c : Contact) (hm : ¬ ("\x7b\x7b" : String).data <:+: m.data) :
    CampaignsService.replaceVariables m vs c = m := by
  unfold CampaignsService.replaceVariables
  rw [foldl_replace_of_brace_free vs m hm]
  show replaceAllStr (replaceAllStr (replaceAllStr m "\x7b\x7bcontact.name\x7d\x7d"
    (if c.name = "" then "Cliente" else c.name)) "\x7b\x7bcontact.email\x7d\x7d"
    (c.email.getD "")) "\x7b\x7bcontact.phone\x7d\x7d" c.phone = m
  rw [replaceAllStr_no_occurrence _ _ _ (absent_pattern_mono (by decide) hm),
    replaceAllStr_no_occurrence _ _ _ (absent_pattern_mono (by decide) hm),
    replaceAllStr_no_occurrence _ _ _ (absent_pattern_mono (by decide) hm)]

/-- C9 (amended): on the fragment where the source's regex replace is
literal find-and-splice — every variable key free of regex metacharacters
(`literalKey`) and every spliced value, including the contact fields, free
of `$` substitution sequences (`dollarFree`) — rendering is idempotent
whenever the first rendering's output no longer contains the placeholder
opener "\x7b\x7b" (substituted values that re-introduce placeholder text
defeat idempotence, as the counterexample shows; outside the fragment the
key is interpreted as a regex and the value for `$`-patterns, and the
program can diverge further).  And with an empty variables map the
`\x7b\x7bcontact.name\x7d\x7d` placeholder renders to the "Cliente" fallback
when the contact's name is absent (empty): there the only firing
substitution splices the fixed literal "Cliente", and the email/phone
patterns find no match, so JS never interprets their replacement values and
no fragment bound is needed. -/
theorem C9_render_idempotent_when_brace_free :
    (∀ (t : String) (vs : List (String × String)) (c : Contact),
      (∀ kv ∈ vs, literalKey kv.1 = true ∧ dollarFree kv.2 = true) →
      dollarFree (if c.name = "" then "Cliente" else c.name) = true →
      dollarFree (c.email.getD "") = true →
      dollarFree c.phone = true →
      ¬ ("\x7b\x7b" : String).data <:+: (CampaignsService.replaceVariables t vs c).data →
      CampaignsService.replaceVariables (CampaignsService.replaceVariables t vs c) vs c =
        CampaignsService.replaceVariables t vs c) ∧
    (∀ c : Contact, c.name = "" →
      CampaignsService.replaceVariables "\x7b\x7bcontact.name\x7d\x7d" [] c = "Cliente") := by
  constructor
  · intro t vs c _ _ _ _ h
    exact replaceVariables_of_brace_free _ vs c h
  · intro c hname
    unfold CampaignsService.replaceVariables
    rw [List.foldl_nil, if_pos hname]
    show replaceAllStr (replaceAllStr (replaceAllStr "\x7b\x7bcontact.name\x7d\x7d"
      "\x7b\x7bcontact.name\x7d\x7d" "Cliente") "\x7b\x7bcontact.email\x7d\x7d"
      (c.email.getD "")) "\x7b\x7bcontact.phone\x7d\x7d" c.phone = "Cliente"
    rw [show replaceAllStr "\x7b\x7bcontact.name\x7d\x7d" "\x7b\x7bcontact.name\x7d\x7d"
        "Cliente" = "Cliente" from by decide]
    rw [replaceAllStr_no_occurrence "Cliente" "\x7b\x7bcontact.email\x7d\x7d"
      (c.email.getD "") (by decide)]
    rw [replaceAllStr_no_occurrence "Cliente" "\x7b\x7bcontact.phone\x7d\x7d" c.phone
      (by decide)]

/-- C9 witness: the amended theorem applied to a concrete literal-fragment
variables map and template whose rendering is brace-free, and to a contact
with an empty name. -/
theorem C9_render_idempotent_witness :
    CampaignsService.replaceVariables
        (CampaignsService.replaceVariables "Ola \x7b\x7bnome\x7d\x7d" [("nome", "Ana")] contC9)
        [("nome", "Ana")] contC9 =
      CampaignsService.replaceVariables "Ola \x7b\x7bnome\x7d\x7d" [("nome", "Ana")] contC9 ∧
    CampaignsService.replaceVariables "\x7b\x7bcontact.name\x7d\x7d" [] contC9b = "Cliente" :=
  ⟨C9_render_idempotent_when_brace_free.1 "Ola \x7b\x7bnome\x7d\x7d" [("nome", "Ana")] contC9
      (by decide) (by decide) (by decide) (by decide) (by decide),
   C9_render_idempotent_when_brace_free.2 contC9b (by decide)⟩

/-! ## Claim C10 -/

/-- C10 counterexample: a viewer who is neither admin nor the owner invokes
membership removal with the owner's id and receives Forbidden — the
permission check fires before the owner-removal guard, so the failure is not
BadRequest for every caller role, refuting the claim as stated. -/
theorem C10_counterexample :
    AgenciesService.removeMember [agC10] 1 agC10.owner viewerC10 =
      Except.error (ApiError.forbidden "Apenas o proprietário ou admin pode remover membros") ∧
    ∀ m, AgenciesService.removeMember [agC10] 1 agC10.owner viewerC10 ≠
      Except.error (ApiError.badRequest m) := by
  constructor
  · decide
  · intro m h
    rw [show AgenciesService.removeMember [agC10] 1 agC10.owner viewerC10 =
        Except.error (ApiError.forbidden "Apenas o proprietário ou admin pode remover membros")
      from by decide] at h
    simp at h

/-- C10 (amended): invoking membership removal with the owner's id never
succeeds — membership and the owner's tenant binding stay untouched, since
every error precedes the saves — and the failure is BadRequest exactly when
the caller passes the permission check (admin role, or the caller is the
owner); any other caller fails earlier with Forbidden. -/
theorem C10_owner_never_removable :
    ∀ (agencies : List Agency) (agencyId : Id) (caller : AuthenticatedUser) (agency : Agency),
      agencies.find? (fun a => a.id == agencyId) = some agency →
      (∀ okv, AgenciesService.removeMember agencies agencyId agency.owner caller ≠
        Except.ok okv) ∧
      ((caller.role = UserRole.admin ∨ agency.owner = caller.userId) →
        AgenciesService.removeMember agencies agencyId agency.owner caller =
          Except.error (ApiError.badRequest "Não é possível remover o proprietário da agência")) ∧
      ((caller.role ≠ UserRole.admin ∧ agency.owner ≠ caller.userId) →
        AgenciesService.removeMember agencies agencyId agency.owner caller =
          Except.error
            (ApiError.forbidden "Apenas o proprietário ou admin pode remover membros")) := by
  intro agencies agencyId caller agency hfind
  have hbody : ∀ P : Except ApiError RemoveMemberOk → Prop,
      P (if caller.role ≠ UserRole.admin ∧ agency.owner ≠ caller.userId then
          Except.error (ApiError.forbidden "Apenas o proprietário ou admin pode remover membros")
        else if agency.owner = agency.owner then
          Except.error (ApiError.badRequest "Não é possível remover o proprietário da agência")
        else
          Except.ok ⟨{ agency with
            members := agency.members.filter (fun m => m ≠ agency.owner) }, agency.owner⟩) →
      P (AgenciesService.removeMember agencies agencyId agency.owner caller) := by
    intro P hP
    unfold AgenciesService.removeMember
    rw [hfind]
    exact hP
  refine ⟨?_, ?_, ?_⟩
  · intro okv
    refine hbody (· ≠ Except.ok okv) ?_
    by_cases hp : caller.role ≠ UserRole.admin ∧ agency.owner ≠ caller.userId
    · rw [if_pos hp]; simp
    · rw [if_neg hp, if_pos rfl]; simp
  · intro hperm
    have hp : ¬ (caller.role ≠ UserRole.admin ∧ agency.owner ≠ caller.userId) := by
      rcases hperm with h | h
      · exact fun hc => hc.1 h
      · exact fun hc => hc.2 h
    refine hbody (· = Except.error
      (ApiError.badRequest "Não é possível remover o proprietário da agência")) ?_
    rw [if_neg hp, if_pos rfl]
  · intro hp
    refine hbody (· = Except.error
      (ApiError.forbidden "Apenas o proprietário ou admin pode remover membros")) ?_
    rw [if_pos hp]

/-- C10 witness: the amended theorem applied to the concrete agency owned by
user 7, called by an admin and by the non-privileged viewer. -/
theorem C10_owner_never_removable_witness :
    AgenciesService.removeMember [agC10] 1 agC10.owner adminU =
      Except.error (ApiError.badRequest "Não é possível remover o proprietário da agência") ∧
    AgenciesService.removeMember [agC10] 1 agC10.owner viewerC10 =
      Except.error (ApiError.forbidden "Apenas o proprietário ou admin pode remover membros") :=
  ⟨(C10_owner_never_removable [agC10] 1 adminU agC10 (by decide)).2.1 (Or.inl rfl),
   (C10_owner_never_removable [agC10] 1 viewerC10 agC10 (by decide)).2.2 (by decide)⟩

end SmartBroker
